import Mathlib

/-!
Verification of the Makindo/client matcher (src/Client.py) against its
specification.

The embedding models the four core components of the program:

* `removeMissing` — the recursive payload sanitizer `remove_missing` (lines 48-56),
  acting on `Value`, a model of Python dictionaries whose values are None,
  booleans, integers, strings or nested dictionaries.
* `parse_names` (lines 59-92) and `parse_locations` (lines 95-121) — the identity
  extractor.  Python exceptions that can escape these functions (the tuple
  unpacking ValueError for a short name, the AttributeError from
  None.get when the location key is absent) are modelled with `Except PyExn`.
* `matchPerson` — the classifier `match` (lines 124-175).  The database cursor is
  modelled by a `DbOutcome` parameter: either the simulated rows the query
  returns, or a data-layer error (the bare except around c.execute).
* `patch` (lines 178-220) — the report builder, up to the payload handed to the
  HTTP transport (the transport itself is out of scope).
-/

/-- Model of a Python/JSON value as stored in the payload dictionaries of
Client.py: None, bool, int, str, or a nested dict (an association list,
in insertion order, as Python dicts preserve it). -/
inductive Value where
  | null : Value
  | bool : Bool → Value
  | int : Int → Value
  | str : String → Value
  | dict : List (String × Value) → Value
deriving Repr

/-- Python truthiness test `not v` as used by remove_missing (line 51):
None, False, 0, the empty string and the empty dict are falsy. -/
def falsy : Value → Bool
  | .null => true
  | .bool b => !b
  | .int n => n == 0
  | .str s => s == ""
  | .dict l => l.isEmpty

mutual
/-- `remove_missing` (Client.py lines 48-56).  The Python function first
deletes every key of the current dict whose value is falsy, and only then
recurses into the values that remain and are dicts.  The single pass below is
extensionally identical: each entry is tested for falsiness (with its original,
unstripped value, just as in the source, where the deletion loop runs over a
snapshot of the items before any recursion) and, when kept, its value is
recursed into; recursing into a non-dict value is the identity, matching the
isinstance guard of line 54. -/
def removeMissing : Value → Value
  | .dict l => .dict (removeMissingList l)
  | v => v

/-- One level of `remove_missing`: drop falsy entries, recurse into the rest. -/
def removeMissingList : List (String × Value) → List (String × Value)
  | [] => []
  | (k, v) :: rest =>
      if falsy v then removeMissingList rest
      else (k, removeMissing v) :: removeMissingList rest
end

/-- Is this value None or the empty string? -/
def isNullOrEmptyStr : Value → Bool
  | .null => true
  | .str s => s == ""
  | _ => false

/-- Is this value the empty dict? -/
def isEmptyDict : Value → Bool
  | .dict [] => true
  | _ => false

mutual
/-- No member of this value, at any nesting depth, is None or an empty string. -/
def noNullEmptyDeep : Value → Bool
  | .dict l => noNullEmptyList l
  | _ => true

/-- List form of `noNullEmptyDeep`. -/
def noNullEmptyList : List (String × Value) → Bool
  | [] => true
  | (_, v) :: rest => !(isNullOrEmptyStr v) && noNullEmptyDeep v && noNullEmptyList rest
end

mutual
/-- No member of this value, at any nesting depth, is an empty dict. -/
def noEmptyDictDeep : Value → Bool
  | .dict l => noEmptyDictList l
  | _ => true

/-- List form of `noEmptyDictDeep`. -/
def noEmptyDictList : List (String × Value) → Bool
  | [] => true
  | (_, v) :: rest => !(isEmptyDict v) && noEmptyDictDeep v && noEmptyDictList rest
end

mutual
/-- No member of this value, at any nesting depth, is falsy at all. -/
def clean : Value → Bool
  | .dict l => cleanList l
  | _ => true

/-- List form of `clean`. -/
def cleanList : List (String × Value) → Bool
  | [] => true
  | (_, v) :: rest => !(falsy v) && clean v && cleanList rest
end

theorem removeMissing_nondict (v : Value) (h : ∀ l, v ≠ .dict l) :
    removeMissing v = v := by
  cases v with
  | dict l => exact absurd rfl (h l)
  | null => rfl
  | bool b => rfl
  | int n => rfl
  | str s => rfl

mutual
/-- After stripping, a value contains no None and no empty-string member at
any depth: falsy members were deleted before recursion, and recursion turns a
kept dict member into a dict (never into None or a string). -/
theorem noNullEmpty_removeMissing (v : Value) :
    noNullEmptyDeep (removeMissing v) = true := by
  cases v with
  | dict l =>
      have h := noNullEmptyList_removeMissingList l
      simp [removeMissing, noNullEmptyDeep, h]
  | null => rfl
  | bool b => rfl
  | int n => rfl
  | str s => rfl

/-- List form of `noNullEmpty_removeMissing`. -/
theorem noNullEmptyList_removeMissingList (l : List (String × Value)) :
    noNullEmptyList (removeMissingList l) = true := by
  cases l with
  | nil => rfl
  | cons kv rest =>
      obtain ⟨k, v⟩ := kv
      by_cases hf : falsy v = true
      · simp [removeMissingList, hf, noNullEmptyList_removeMissingList rest]
      · have hrec := noNullEmpty_removeMissing v
        have hrest := noNullEmptyList_removeMissingList rest
        simp [removeMissingList, hf, noNullEmptyList, hrec, hrest]
        cases v with
        | dict m => simp [removeMissing, isNullOrEmptyStr]
        | null => simp [falsy] at hf
        | bool b => simp [removeMissing, isNullOrEmptyStr]
        | int n => simp [removeMissing, isNullOrEmptyStr]
        | str s =>
            simp [falsy] at hf
            simp [removeMissing, isNullOrEmptyStr, hf]
end

mutual
/-- A value with no falsy member at any depth is a fixed point of the strip. -/
theorem removeMissing_eq_of_clean (v : Value) (h : clean v = true) :
    removeMissing v = v := by
  cases v with
  | dict l =>
      simp [clean] at h
      simp [removeMissing, removeMissingList_eq_of_clean l h]
  | null => rfl
  | bool b => rfl
  | int n => rfl
  | str s => rfl

/-- List form of `removeMissing_eq_of_clean`. -/
theorem removeMissingList_eq_of_clean (l : List (String × Value))
    (h : cleanList l = true) : removeMissingList l = l := by
  cases l with
  | nil => rfl
  | cons kv rest =>
      obtain ⟨k, v⟩ := kv
      simp [cleanList] at h
      obtain ⟨⟨hv, hc⟩, hrest⟩ := h
      simp [removeMissingList, hv, removeMissing_eq_of_clean v hc,
        removeMissingList_eq_of_clean rest hrest]
end

mutual
/-- If the output of the strip contains no empty dict anywhere, then it is
clean: the only falsy values the strip can leave behind are dicts emptied by
the recursion. -/
theorem clean_removeMissing_of_noEmptyDict (v : Value)
    (h : noEmptyDictDeep (removeMissing v) = true) :
    clean (removeMissing v) = true := by
  cases v with
  | dict l =>
      simp [removeMissing, noEmptyDictDeep] at h
      simp [removeMissing, clean, cleanList_removeMissingList_of_noEmptyDict l h]
  | null => rfl
  | bool b => rfl
  | int n => rfl
  | str s => rfl

/-- List form of `clean_removeMissing_of_noEmptyDict`. -/
theorem cleanList_removeMissingList_of_noEmptyDict (l : List (String × Value))
    (h : noEmptyDictList (removeMissingList l) = true) :
    cleanList (removeMissingList l) = true := by
  cases l with
  | nil => rfl
  | cons kv rest =>
      obtain ⟨k, v⟩ := kv
      by_cases hf : falsy v = true
      · simp [removeMissingList, hf] at h ⊢
        exact cleanList_removeMissingList_of_noEmptyDict rest h
      · simp [removeMissingList, hf, noEmptyDictList] at h
        obtain ⟨⟨hne, hdeep⟩, hrest⟩ := h
        have h1 : falsy (removeMissing v) = false := by
          cases v with
          | dict m =>
              cases hm : removeMissingList m with
              | nil => simp [removeMissing, isEmptyDict, hm] at hne
              | cons a as => simp [removeMissing, falsy, hm]
          | null => simp [falsy] at hf
          | bool b => simp [removeMissing]; simpa using hf
          | int n => simp [removeMissing]; simpa using hf
          | str s => simp [removeMissing]; simpa using hf
        have h2 := clean_removeMissing_of_noEmptyDict v hdeep
        have h3 := cleanList_removeMissingList_of_noEmptyDict rest hrest
        simp [removeMissingList, hf, cleanList, h1, h2, h3]
end

/-- Python exceptions that can escape the functions under study. -/
inductive PyExn where
  | valueError : PyExn
  | attributeError : PyExn
deriving Repr, DecidableEq

/-- One alternate name candidate from person.names: a dict with the keys
personal and family, either of which may be null. -/
structure NameCand where
  personal : Option String
  family : Option String
deriving Repr, DecidableEq

/-- The primary location object person.location: a dict whose state key may
be absent or null (both modelled as none). -/
structure Location where
  state : Option String
deriving Repr, DecidableEq

/-- A Makindo Person record, as the four accesses of Client.py see it:
person.get(name), person.get(names), person.get(location),
person.get(locations).  A key that is absent and a key that is null are both
modelled as none, because the code only reads these through .get, whose
result it then tests for truthiness (or, for location, dereferences).  Each
element of locations is the value of the state key of that alternate. -/
structure Person where
  name : Option String
  names : Option (List NameCand)
  location : Option Location
  locations : Option (List (Option String))
deriving Repr, DecidableEq

/-- Python truthiness of an optional string: present and non-empty. -/
def truthyS : Option String → Bool
  | none => false
  | some s => !(s == "")

/-- Python truthiness of an optional list: present and non-empty. -/
def truthyL {α : Type} : Option (List α) → Bool
  | none => false
  | some l => !l.isEmpty

/-- Helper for `pySplit`: walk the characters, accumulating the current
token in reverse; whitespace closes the current token (if non-empty). -/
def pySplitAux : List Char → List Char → List String
  | [], acc => if acc.isEmpty then [] else [String.mk acc.reverse]
  | c :: cs, acc =>
      if c.isWhitespace then
        if acc.isEmpty then pySplitAux cs []
        else String.mk acc.reverse :: pySplitAux cs []
      else pySplitAux cs (c :: acc)

/-- Python str.split() with no argument (line 80): split on runs of
whitespace, discarding empty tokens. -/
def pySplit (s : String) : List String :=
  pySplitAux s.data []

/-- Python str.upper() (lines 110 and 112), character by character. -/
def pyUpper (s : String) : String :=
  String.mk (s.data.map Char.toUpper)

/-- Can this string be encoded in latin-1, i.e. are all its code points
below 256?  Used to model str.encode(latin-1) of lines 89-92. -/
def latin1Encodable (s : String) : Bool :=
  s.data.all (fun c => c.toNat < 256)

/-- The try/except of lines 89-92: encode both names as latin-1; if either
raises UnicodeEncodeError, return the (None, None) pair instead. -/
def encodeNames (firstname lastname : String) : Option String × Option String :=
  if latin1Encodable firstname && latin1Encodable lastname then
    (some firstname, some lastname)
  else (none, none)

/-- Does the alternate name candidate have all its values truthy, as in
all(i.values()) on line 82? -/
def candFull (c : NameCand) : Bool :=
  truthyS c.personal && truthyS c.family

/-- `parse_names` (Client.py lines 59-92).  The starred tuple unpacking of
line 80 raises ValueError when the primary name splits into fewer than two
tokens; this escape is the .error case. -/
def parse_names (person : Person) : Except PyExn (Option String × Option String) :=
  if truthyS person.name then
    match pySplit (person.name.getD "") with
    | [] => .error .valueError
    | [_] => .error .valueError
    | firstname :: rest => .ok (encodeNames firstname (rest.getLastD ""))
  else if truthyL person.names then
    match (person.names.getD []).filter candFull with
    | [c] => .ok (encodeNames (c.personal.getD "") (c.family.getD ""))
    | _ => .ok (none, none)
  else .ok (none, none)

/-- The list of the 51 jurisdiction codes (Client.py lines 41-45). -/
def states : List String :=
  ["AL", "AK", "AZ", "AR", "CA", "CO", "CT", "DE", "DC", "FL", "GA",
   "HI", "ID", "IL", "IN", "IA", "KS", "KY", "LA", "ME", "MD", "MA",
   "MI", "MN", "MS", "MO", "MT", "NE", "NV", "NH", "NJ", "NM", "NY",
   "NC", "ND", "OH", "OK", "OR", "PA", "RI", "SC", "SD", "TN", "TX",
   "UT", "VT", "VA", "WA", "WV", "WI", "WY"]

/-- The set comprehension of line 112: the distinct upper-cased truthy state
values among the alternate locations. -/
def altStates (person : Person) : List String :=
  ((((person.locations.getD []).filterMap id).filter
    (fun s => !(s == ""))).map pyUpper).dedup

/-- The final guard of lines 119-121: a candidate state passes only when it
is a member of the jurisdiction list, else the function returns None. -/
def gateStates : Option String → Option String
  | some st => if st ∈ states then some st else none
  | none => none

/-- `parse_locations` (Client.py lines 95-121).  Line 109 reads
person.get(location).get(state): when the location key is absent (or null),
the first .get returns None and the second raises AttributeError — the .error
case.  Otherwise the primary state is used when truthy; else, when the
alternate list is truthy, its distinct upper-cased truthy states are collected
and used only when exactly one exists.  A candidate that survives is finally
checked against the jurisdiction list (line 119). -/
def parse_locations (person : Person) : Except PyExn (Option String) :=
  match person.location with
  | none => .error .attributeError
  | some loc =>
      let primary : Option String :=
        match loc.state with
        | none => none
        | some s => if s == "" then none else some (pyUpper s)
      let state : Option String :=
        match primary with
        | some st => some st
        | none =>
            if truthyL person.locations then
              match altStates person with
              | [st] => some st
              | _ => none
            else none
      .ok (gateStates state)

/-- One row of a simulated lookup result, shaped as the cursor returns it
after the projection of the SELECT of lines 139-150: individualid, the
concatenated name, the gender already mapped by the CASE expression to male,
female or NULL, age, city, state and findincome.  Any column may be NULL. -/
structure Row where
  id : Option Int
  name : Option String
  gender : Option String
  age : Option Int
  city : Option String
  state : Option String
  findincome : Option Int
deriving Repr, DecidableEq

/-- A simulated outcome of c.execute on line 154: either the list of rows
the query matched (num_results is its length), or a data-layer error caught
by the bare except of line 155. -/
inductive DbOutcome where
  | err : DbOutcome
  | ok : List Row → DbOutcome
deriving Repr, DecidableEq

/-- The 8-tuple that `match` returns (line 175): a status string and the
seven demographic fields. -/
structure MatchTuple where
  status : String
  _id : Option Int
  name : Option String
  gender : Option String
  age : Option Int
  city : Option String
  state : Option String
  findincome : Option Int
deriving Repr, DecidableEq

/-- The all-None failed tuple of lines 137 and 158. -/
def failedTuple : MatchTuple :=
  ⟨"failed", none, none, none, none, none, none, none⟩

/-- The numeric sanitation of lines 168-169: `int(x) if x else None`.
A NULL or zero raw value becomes None; any other value is kept. -/
def pyOptNum : Option Int → Option Int
  | none => none
  | some n => if n == 0 then none else some n

/-- `match` (Client.py lines 124-175).  parse_names runs first (line 133),
then parse_locations (line 134); an exception from either propagates out of
match.  When any of the three key components is falsy the failed tuple is
returned before any query runs (lines 136-137).  Otherwise the simulated
lookup outcome is classified: a data-layer error gives failed (lines
153-158), zero rows missing, exactly one row found with the row fields
(sanitised ages and incomes), and more than one row ambiguous with all
fields None (lines 160-175). -/
def matchPerson (person : Person) (db : DbOutcome) : Except PyExn MatchTuple :=
  match parse_names person with
  | .error e => .error e
  | .ok (firstname, lastname) =>
      match parse_locations person with
      | .error e => .error e
      | .ok state =>
          if truthyS firstname && truthyS lastname && truthyS state then
            match db with
            | .err => .ok failedTuple
            | .ok [] => .ok { failedTuple with status := "missing" }
            | .ok [r] =>
                .ok ⟨"found", r.id, r.name, r.gender, pyOptNum r.age,
                     r.city, r.state, pyOptNum r.findincome⟩
            | .ok (_ :: _ :: _) => .ok { failedTuple with status := "ambiguous" }
          else .ok failedTuple

/-- The four canonical outbound status strings of line 193. -/
def validStatuses : List String := ["found", "ambiguous", "missing", "failed"]

/-- Lift an optional string into a payload value (None for absent). -/
def optStr : Option String → Value
  | none => .null
  | some s => .str s

/-- Lift an optional integer into a payload value (None for absent). -/
def optInt : Option Int → Value
  | none => .null
  | some n => .int n

/-- The nested payload dict literal of lines 196-214, before stripping. -/
def buildPayload (t : MatchTuple) : Value :=
  .dict [("person", .dict
    [("location", .dict [("city", optStr t.city), ("state", optStr t.state)]),
     ("gender", optStr t.gender),
     ("age", .dict [("maximum", optInt t.age), ("minimum", optInt t.age)]),
     ("data", .dict [("income", optInt t.findincome)]),
     ("external_id", optInt t._id),
     ("name", optStr t.name),
     ("status", .str t.status)])]

/-- `patch` (Client.py lines 178-220), up to the JSON body handed to the
HTTP transport: the status is checked against the four canonical strings
before the payload dict is assembled (lines 191-194), and an invalid status
raises ValueError; otherwise the assembled payload is stripped with
remove_missing (line 215) and returned. -/
def patch (t : MatchTuple) : Except PyExn Value :=
  if t.status ∈ validStatuses then .ok (removeMissing (buildPayload t))
  else .error .valueError

/-- A well-formed person: primary name of two tokens, lower-case primary
state ca. -/
def janeDoe : Person := ⟨some "Jane Doe", none, some ⟨some "ca"⟩, none⟩

/-- A person whose primary name splits into a single token. -/
def singleTokenPerson : Person := ⟨some "Cher", none, some ⟨some "CA"⟩, none⟩

/-- A person with alternate locations but no location key at all. -/
def noLocationKeyPerson : Person := ⟨none, none, none, some [some "ca"]⟩

/-- A person whose primary state is the well-formed but out-of-domain ZZ. -/
def zzStatePerson : Person := ⟨some "Jane Doe", none, some ⟨some "ZZ"⟩, none⟩

/-- A person with a truthy primary name AND two fully populated alternate
name candidates. -/
def primaryAndTwoAltsPerson : Person :=
  ⟨some "Jane Doe", some [⟨some "A", some "B"⟩, ⟨some "C", some "D"⟩],
   some ⟨some "CA"⟩, none⟩

/-- A person with no primary name and two fully populated alternate name
candidates. -/
def twoAltsNoPrimaryPerson : Person :=
  ⟨none, some [⟨some "A", some "B"⟩, ⟨some "C", some "D"⟩], some ⟨some "CA"⟩, none⟩

/-- A person whose location object has a null state, with alternates that
agree on CA up to case. -/
def emptyStateAltsAgreePerson : Person :=
  ⟨none, none, some ⟨none⟩, some [some "ca", some "CA"]⟩

/-- A person whose location object has a null state, with conflicting
alternates. -/
def emptyStateAltsConflictPerson : Person :=
  ⟨none, none, some ⟨none⟩, some [some "ca", some "ny"]⟩

/-- A single fully populated row whose age, 200, exceeds any credible
human lifespan. -/
def rowAge200 : Row :=
  ⟨some 1, some "Jane Doe", some "male", some 200, some "Los Angeles",
   some "CA", some 50000⟩

/-- A single row whose raw age and income are zero. -/
def rowZeroAgeIncome : Row :=
  ⟨some 1, some "Jane Doe", some "male", some 0, some "Los Angeles",
   some "CA", some 0⟩

/-- A fully populated row with sane values. -/
def rowSane : Row :=
  ⟨some 7, some "Jane Doe", some "female", some 30, some "Los Angeles",
   some "CA", some 60000⟩

/-- A found tuple whose external id is the integer 0. -/
def zeroIdTuple : MatchTuple :=
  ⟨"found", some 0, some "Jane Doe", some "male", some 30, some "Los Angeles",
   some "CA", some 50000⟩

/-- All seven demographic fields of the tuple are present. -/
def populated (t : MatchTuple) : Prop :=
  t._id.isSome ∧ t.name.isSome ∧ t.gender.isSome ∧ t.age.isSome ∧
  t.city.isSome ∧ t.state.isSome ∧ t.findincome.isSome

/-- All seven demographic fields of the tuple are absent. -/
def allAbsent (t : MatchTuple) : Prop :=
  t._id = none ∧ t.name = none ∧ t.gender = none ∧ t.age = none ∧
  t.city = none ∧ t.state = none ∧ t.findincome = none

theorem gateStates_mem (x : Option String) (s : String)
    (h : gateStates x = some s) : s ∈ states := by
  cases x with
  | none => simp [gateStates] at h
  | some st =>
      by_cases hm : st ∈ states
      · simp [gateStates, hm] at h
        rw [← h]; exact hm
      · simp [gateStates, hm] at h

theorem parse_locations_gate (p : Person) (s : String)
    (h : parse_locations p = .ok (some s)) : ∃ x, gateStates x = some s := by
  cases hp : p.location with
  | none => simp [parse_locations, hp] at h
  | some loc =>
      simp [parse_locations, hp] at h
      exact ⟨_, h⟩

theorem matchPerson_cases (person : Person) (f l st : String)
    (h1 : parse_names person = .ok (some f, some l))
    (h2 : parse_locations person = .ok (some st))
    (hf : f ≠ "") (hl : l ≠ "") (hst : st ≠ "") :
    matchPerson person .err = .ok failedTuple ∧
    matchPerson person (.ok []) = .ok { failedTuple with status := "missing" } ∧
    (∀ r : Row, matchPerson person (.ok [r]) =
      .ok ⟨"found", r.id, r.name, r.gender, pyOptNum r.age,
           r.city, r.state, pyOptNum r.findincome⟩) ∧
    (∀ (r1 r2 : Row) (rs : List Row), matchPerson person (.ok (r1 :: r2 :: rs)) =
      .ok { failedTuple with status := "ambiguous" }) := by
  refine ⟨?_, ?_, ?_, ?_⟩
  · simp [matchPerson, h1, h2, truthyS, hf, hl, hst]
  · simp [matchPerson, h1, h2, truthyS, hf, hl, hst]
  · intro r
    simp [matchPerson, h1, h2, truthyS, hf, hl, hst]
  · intro r1 r2 rs
    simp [matchPerson, h1, h2, truthyS, hf, hl, hst]

/-- C1 (corrected, counterexample): the claim that the stripped payload
contains no null, empty-string or empty-object value at any depth is false:
for the failed tuple (a valid status), patch emits a payload in which
location, age and data are empty nested objects left behind by the strip. -/
theorem c1_empty_object_in_failed_payload :
    patch failedTuple = .ok (.dict [("person", .dict
      [("location", .dict []), ("age", .dict []), ("data", .dict []),
       ("status", .str "failed")])]) ∧
    noEmptyDictDeep (.dict [("person", .dict
      [("location", .dict []), ("age", .dict []), ("data", .dict []),
       ("status", .str "failed")])]) = false :=
  ⟨rfl, rfl⟩

/-- C1 (amended): for every tuple with a valid status, the payload that
patch produces after stripping contains, at no nesting depth, a key whose
value is null or an empty string; a nested object whose members were all
stripped, however, remains in the payload as an empty object. -/
theorem c1_stripped_payload_no_null_no_empty_string (t : MatchTuple) :
    (t.status ∈ validStatuses → patch t = .ok (removeMissing (buildPayload t))) ∧
    noNullEmptyDeep (removeMissing (buildPayload t)) = true := by
  constructor
  · intro h; simp [patch, h]
  · exact noNullEmpty_removeMissing (buildPayload t)

/-- C1 witness: the amended theorem applied to the failed tuple. -/
theorem c1_witness_failed_payload :
    patch failedTuple = .ok (removeMissing (buildPayload failedTuple)) ∧
    noNullEmptyDeep (removeMissing (buildPayload failedTuple)) = true :=
  ⟨(c1_stripped_payload_no_null_no_empty_string failedTuple).1 (by decide),
   (c1_stripped_payload_no_null_no_empty_string failedTuple).2⟩

/-- C2 (confirmed): for every person whose identity key resolves, the
classifier maps every simulated lookup outcome totally and exhaustively —
error to failed, zero rows to missing, one row to found with the row fields
populated, more than one row to ambiguous — and the seven demographic fields
are all absent in every non-found outcome, and all present in the found
outcome whenever the row provides them (with a sane age and income). -/
theorem c2_cardinality_status_mapping (person : Person) (f l st : String)
    (h1 : parse_names person = .ok (some f, some l))
    (h2 : parse_locations person = .ok (some st))
    (hf : f ≠ "") (hl : l ≠ "") (hst : st ≠ "") :
    matchPerson person .err = .ok failedTuple ∧
    matchPerson person (.ok []) = .ok { failedTuple with status := "missing" } ∧
    (∀ r : Row, matchPerson person (.ok [r]) =
      .ok ⟨"found", r.id, r.name, r.gender, pyOptNum r.age,
           r.city, r.state, pyOptNum r.findincome⟩) ∧
    (∀ (r1 r2 : Row) (rs : List Row), matchPerson person (.ok (r1 :: r2 :: rs)) =
      .ok { failedTuple with status := "ambiguous" }) ∧
    allAbsent failedTuple ∧
    allAbsent { failedTuple with status := "missing" } ∧
    allAbsent { failedTuple with status := "ambiguous" } ∧
    (∀ r : Row, r.id.isSome → r.name.isSome → r.gender.isSome →
      r.city.isSome → r.state.isSome →
      (pyOptNum r.age).isSome → (pyOptNum r.findincome).isSome →
      ∃ t : MatchTuple, matchPerson person (.ok [r]) = .ok t ∧
        t.status = "found" ∧ populated t) := by
  obtain ⟨e1, e2, e3, e4⟩ := matchPerson_cases person f l st h1 h2 hf hl hst
  refine ⟨e1, e2, e3, e4, ?_, ?_, ?_, ?_⟩
  · exact ⟨rfl, rfl, rfl, rfl, rfl, rfl, rfl⟩
  · exact ⟨rfl, rfl, rfl, rfl, rfl, rfl, rfl⟩
  · exact ⟨rfl, rfl, rfl, rfl, rfl, rfl, rfl⟩
  · intro r hid hname hg hc hs ha hi
    exact ⟨_, e3 r, rfl, hid, hname, hg, ha, hc, hs, hi⟩

/-- C2 witness: the mapping applied to a concrete person, for the error and
the zero-row outcomes. -/
theorem c2_witness_simulated_outcomes :
    matchPerson janeDoe .err = .ok failedTuple ∧
    matchPerson janeDoe (.ok []) = .ok { failedTuple with status := "missing" } := by
  have h := c2_cardinality_status_mapping janeDoe "Jane" "Doe" "CA" rfl rfl
    (by decide) (by decide) (by decide)
  exact ⟨h.1, h.2.1⟩

/-- C3 (code_bug): for a person whose primary name splits into a single
token, the starred unpacking of line 80 raises ValueError out of parse_names
and hence out of match, for every simulated lookup outcome — the code does
not return the silent failed tuple the claim (and the parse_names docstring)
promises. -/
theorem c3_single_token_name_raises :
    parse_names singleTokenPerson = .error .valueError ∧
    (∀ db : DbOutcome, matchPerson singleTokenPerson db = .error .valueError) :=
  ⟨rfl, fun _ => rfl⟩

/-- C4 (code_bug): for a person with alternate locations but no location key
at all, line 109 raises AttributeError instead of falling back to the
alternates; when the location key is present with a null state, the alternate
collection does work as claimed — one distinct upper-cased value resolves,
conflicting values fail. -/
theorem c4_missing_location_key_raises :
    parse_locations noLocationKeyPerson = .error .attributeError ∧
    parse_locations emptyStateAltsAgreePerson = .ok (some "CA") ∧
    parse_locations emptyStateAltsConflictPerson = .ok none :=
  ⟨rfl, rfl, rfl⟩

/-- C5 (corrected, counterexample): a person with two fully populated
alternate name candidates AND a truthy two-token primary name resolves via
the primary name — extraction does not fail, so the claim does not hold
regardless of the primary name field. -/
theorem c5_primary_name_overrides_alternates :
    ((primaryAndTwoAltsPerson.names.getD []).filter candFull).length = 2 ∧
    parse_names primaryAndTwoAltsPerson = .ok (some "Jane", some "Doe") :=
  ⟨rfl, rfl⟩

/-- C5 (amended): for every person whose primary name field is absent or
empty, if the number of fully populated alternate name candidates is not
exactly one, name extraction returns the unresolved (None, None) pair. -/
theorem c5_alternates_cardinality_failure (p : Person)
    (hname : truthyS p.name = false)
    (hcard : ((p.names.getD []).filter candFull).length ≠ 1) :
    parse_names p = .ok (none, none) := by
  by_cases hL : truthyL p.names = true
  · rcases hfil : (p.names.getD []).filter candFull with _ | ⟨c, _ | ⟨c2, cs⟩⟩
    · simp [parse_names, hname, hL, hfil]
    · rw [hfil] at hcard; simp at hcard
    · simp [parse_names, hname, hL, hfil]
  · simp [parse_names, hname, hL]

/-- C5 witness: the amended theorem at a person with no primary name and two
fully populated alternates. -/
theorem c5_witness_two_alternates :
    parse_names twoAltsNoPrimaryPerson = .ok (none, none) :=
  c5_alternates_cardinality_failure twoAltsNoPrimaryPerson rfl (by decide)

/-- C6 (corrected, counterexample): a single row with age 200 — outside any
credible human lifespan — is NOT discarded: the classifier keeps it, because
line 168 only tests Python truthiness of the raw value. -/
theorem c6_age_200_not_discarded :
    matchPerson janeDoe (.ok [rowAge200]) =
      .ok ⟨"found", some 1, some "Jane Doe", some "male", some 200,
           some "Los Angeles", some "CA", some 50000⟩ := rfl

/-- C6 (amended): for every single-row result, the classifier treats an age
or income whose raw value is zero or absent as absent (rather than zero),
and keeps every other value, with no lifespan upper bound applied. -/
theorem c6_numeric_sanitation_zero_or_absent (person : Person) (f l st : String)
    (h1 : parse_names person = .ok (some f, some l))
    (h2 : parse_locations person = .ok (some st))
    (hf : f ≠ "") (hl : l ≠ "") (hst : st ≠ "") :
    (∀ r : Row, matchPerson person (.ok [r]) =
      .ok ⟨"found", r.id, r.name, r.gender, pyOptNum r.age,
           r.city, r.state, pyOptNum r.findincome⟩) ∧
    pyOptNum (some 0) = none ∧ pyOptNum none = none ∧
    (∀ n : Int, n ≠ 0 → pyOptNum (some n) = some n) := by
  refine ⟨(matchPerson_cases person f l st h1 h2 hf hl hst).2.2.1, rfl, rfl, ?_⟩
  intro n hn
  simp [pyOptNum, hn]

/-- C6 witness: the amended theorem at a concrete person and a row with zero
raw age and income. -/
theorem c6_witness_zero_age_income :
    matchPerson janeDoe (.ok [rowZeroAgeIncome]) =
      .ok ⟨"found", some 1, some "Jane Doe", some "male", pyOptNum (some 0),
           some "Los Angeles", some "CA", pyOptNum (some 0)⟩ :=
  (c6_numeric_sanitation_zero_or_absent janeDoe "Jane" "Doe" "CA" rfl rfl
    (by decide) (by decide) (by decide)).1 rowZeroAgeIncome

/-- C7 (confirmed): every state value that parse_locations resolves is a
member of the fixed 51-symbol jurisdiction list, and the well-formed
out-of-domain value ZZ is rejected (resolved to absent). -/
theorem c7_resolved_state_in_jurisdiction_set :
    (∀ (p : Person) (s : String), parse_locations p = .ok (some s) → s ∈ states) ∧
    parse_locations zzStatePerson = .ok none := by
  constructor
  · intro p s h
    obtain ⟨x, hx⟩ := parse_locations_gate p s h
    exact gateStates_mem x s hx
  · rfl

/-- C7 witness: the membership half applied to a concrete person resolving
to CA. -/
theorem c7_witness_ca : "CA" ∈ states :=
  c7_resolved_state_in_jurisdiction_set.1 janeDoe "CA" rfl

/-- C8 (confirmed): patch raises ValueError exactly when the status is not
one of the four canonical strings, and on a valid status it returns the
stripped payload — the status check precedes payload assembly, so an invalid
status never produces a payload. -/
theorem c8_patch_rejects_invalid_status (t : MatchTuple) :
    (patch t = .error .valueError ↔ t.status ∉ validStatuses) ∧
    (t.status ∈ validStatuses → patch t = .ok (removeMissing (buildPayload t))) := by
  by_cases h : t.status ∈ validStatuses
  · constructor
    · simp [patch, h]
    · intro _; simp [patch, h]
  · constructor
    · simp [patch, h]
    · intro hc; exact absurd hc h

/-- C8 witness: the rejection applied to a tuple with the status bogus. -/
theorem c8_witness_bogus_status :
    patch ⟨"bogus", none, none, none, none, none, none, none⟩ = .error .valueError :=
  (c8_patch_rejects_invalid_status
    ⟨"bogus", none, none, none, none, none, none, none⟩).1.mpr (by decide)

/-- A dictionary holding one nested dictionary whose only member is null. -/
def nestedNullDict : Value := .dict [("a", .dict [("b", .null)])]

/-- C9 (corrected, counterexample): remove_missing is not idempotent — on a
dict whose nested dict holds only a null, the first pass leaves the nested
dict behind as an empty object, and a second pass removes it. -/
theorem c9_not_idempotent_counterexample :
    removeMissing (removeMissing nestedNullDict) ≠ removeMissing nestedNullDict := by
  have h1 : removeMissing nestedNullDict = .dict [("a", .dict [])] := rfl
  have h2 : removeMissing (removeMissing nestedNullDict) = .dict [] := rfl
  rw [h2, h1]
  simp

/-- C9 (amended): the strip is idempotent on every dictionary whose stripped
form contains no emptied nested object; in general a second application can
further remove nested objects that the first application emptied. -/
theorem c9_idempotent_without_emptied_objects (v : Value)
    (h : noEmptyDictDeep (removeMissing v) = true) :
    removeMissing (removeMissing v) = removeMissing v :=
  removeMissing_eq_of_clean (removeMissing v) (clean_removeMissing_of_noEmptyDict v h)

/-- C9 witness: the amended theorem at a flat dictionary with a null member. -/
theorem c9_witness_flat_dict :
    removeMissing (removeMissing (.dict [("a", .int 1), ("b", .null)])) =
      removeMissing (.dict [("a", .int 1), ("b", .null)]) :=
  c9_idempotent_without_emptied_objects (.dict [("a", .int 1), ("b", .null)]) rfl

/-- C10 (confirmed): the strip removes every key whose value is falsy, not
only null or empty ones — an integer 0 and the boolean False are deleted at
any visited level — so a found tuple whose external id is 0 is transmitted
with no external_id key at all. -/
theorem c10_falsy_zero_false_removed :
    (∀ (k : String) (rest : List (String × Value)),
      removeMissingList ((k, .int 0) :: rest) = removeMissingList rest) ∧
    (∀ (k : String) (rest : List (String × Value)),
      removeMissingList ((k, .bool false) :: rest) = removeMissingList rest) ∧
    patch zeroIdTuple = .ok (.dict [("person", .dict
      [("location", .dict [("city", .str "Los Angeles"), ("state", .str "CA")]),
       ("gender", .str "male"),
       ("age", .dict [("maximum", .int 30), ("minimum", .int 30)]),
       ("data", .dict [("income", .int 50000)]),
       ("name", .str "Jane Doe"),
       ("status", .str "found")])]) :=
  ⟨fun k rest => by simp [removeMissingList, falsy],
   fun k rest => by simp [removeMissingList, falsy],
   rfl⟩
